import Mathlib

/-!
Verification of the client-side session and realtime-synchronization layer.

The development shallowly embeds four pieces of the frontend:

* `AuthState` with `setTokens`, `logout`, reload-from-storage — the session
  store of `frontend/src/services/auth.ts` (in-memory token pair mirrored
  into localStorage);
* a per-call phase machine `stepCall` with an interleaving scheduler
  `runCalls` — the authenticated request executor `apiFetch` of
  `services/api.ts`, including its 401 → refresh → retry path;
* `dashStep` — the dashboard hook's realtime handler (`useDashboard`):
  every `alert`/`production` websocket message immediately invokes
  `refresh()`;
* `wsHandle` and a JSON parser — the websocket service
  `connectWebSocket`: the handlers it installs (onopen, onmessage,
  onerror; it installs no onclose handler) and the cleanup closure it
  returns.

The scheduling model is the single-threaded cooperative one of the app:
network completions are delivered one at a time by an explicit schedule,
and a step of one call runs atomically between suspension points.
-/

namespace ApexClient

/-- Session store state of `AuthService`: the two in-memory token fields
and the two localStorage keys they are mirrored into. -/
structure AuthState where
  accessToken : Option String
  refreshToken : Option String
  stAccess : Option String
  stRefresh : Option String
deriving Repr, DecidableEq

/-- State before any login with empty durable storage. -/
def AuthState.initial : AuthState := ⟨none, none, none, none⟩

/-- setTokens writes both in-memory fields and both localStorage keys. -/
def AuthState.setTokens (_s : AuthState) (a r : String) : AuthState :=
  ⟨some a, some r, some a, some r⟩

/-- logout nulls both in-memory fields and removes both localStorage keys. -/
def AuthState.logout (_s : AuthState) : AuthState :=
  ⟨none, none, none, none⟩

/-- Constructor behaviour: load both in-memory fields from localStorage. -/
def AuthState.reload (s : AuthState) : AuthState :=
  ⟨s.stAccess, s.stRefresh, s.stAccess, s.stRefresh⟩

/-- getAccessToken returns the in-memory access token. -/
def AuthState.getAccessToken (s : AuthState) : Option String :=
  s.accessToken

/-- isAuthenticated is `accessToken !== null`. -/
def AuthState.isAuthenticated (s : AuthState) : Bool :=
  s.accessToken.isSome

/-- Convenience: the state right after `setTokens a r` (a full session). -/
def authWith (a r : String) : AuthState :=
  ⟨some a, some r, some a, some r⟩

/-- Errors `apiFetch` can throw: the two failure modes of
`refreshAccessToken` (no stored refresh token; refresh endpoint not ok). -/
inductive ErrKind
  | noRefreshToken
  | refreshFailed
deriving Repr, DecidableEq

/-- Outcome of one `apiFetch` call: a returned `Response` with its HTTP
status, or a thrown error. -/
inductive CallResult
  | response (status : Nat)
  | thrown (e : ErrKind)
deriving Repr, DecidableEq

/-- Phase of one in-flight `apiFetch` call, between suspension points.
The Bool is the call's `requiresAuth` option. -/
inductive CallPhase
  | start (requiresAuth : Bool)
  | awaitingFirst (requiresAuth : Bool)
  | awaitingRefresh
  | awaitingRetry
  | done (r : CallResult)
deriving Repr, DecidableEq

/-- Completion events the scheduler can deliver to one call. -/
inductive NetEvent
  | issue
  | firstResp (status : Nat)
  | refreshResp (ok : Bool) (a r : String)
  | retryResp (status : Nat)
deriving Repr, DecidableEq

/-- Observable actions of the executor: an initial fetch (recording
whether an Authorization header was attached), a call to the refresh
endpoint, the retried fetch, and the redirect to /login. -/
inductive LogEntry
  | fetchCall (withAuth : Bool)
  | refreshCall
  | retryCall
  | redirectLogin
deriving Repr, DecidableEq

/-- One step of a single `apiFetch` call, from the source:

* issue: read the access token, attach `Authorization` iff `requiresAuth`
  and a token is stored, and start the fetch;
* first response 401 with `requiresAuth`: call
  `authService.refreshAccessToken()`; with no stored refresh token it
  throws at once and the catch block runs `logout()`, redirects to
  /login and rethrows; otherwise the refresh request is issued;
* refresh response not ok: `refreshAccessToken` runs `logout()` and
  throws, the catch block runs `logout()` again, redirects and rethrows;
* refresh response ok: `setTokens`, set the header to the new token and
  retry the original request once;
* the retry's response is returned whatever its status;
* any other first response is returned unmodified.

There is no pending-refresh handle anywhere in the source: the decision
to refresh looks only at this call's own response and the stored token. -/
def stepCall (auth : AuthState) (ph : CallPhase) (ev : NetEvent) :
    AuthState × CallPhase × List LogEntry :=
  match ph, ev with
  | .start req, .issue =>
      (auth, .awaitingFirst req, [.fetchCall (req && auth.accessToken.isSome)])
  | .awaitingFirst req, .firstResp status =>
      if status = 401 ∧ req then
        match auth.refreshToken with
        | none => (auth.logout, .done (.thrown .noRefreshToken), [.redirectLogin])
        | some _ => (auth, .awaitingRefresh, [.refreshCall])
      else
        (auth, .done (.response status), [])
  | .awaitingRefresh, .refreshResp ok a r =>
      if ok then
        (auth.setTokens a r, .awaitingRetry, [.retryCall])
      else
        (auth.logout.logout, .done (.thrown .refreshFailed), [.redirectLogin])
  | .awaitingRetry, .retryResp status =>
      (auth, .done (.response status), [])
  | _, _ => (auth, ph, [])

/-- Cooperative interleaving of several `apiFetch` calls: the schedule is
a list of (call index, event) pairs; each event runs one atomic step of
that call against the shared session state. -/
def runCalls (auth : AuthState) (phases : List CallPhase) :
    List (Nat × NetEvent) → AuthState × List CallPhase × List LogEntry
  | [] => (auth, phases, [])
  | (i, ev) :: rest =>
      match phases[i]? with
      | none => runCalls auth phases rest
      | some ph =>
          let r := stepCall auth ph ev
          let rec2 := runCalls r.1 (phases.set i r.2.1) rest
          (rec2.1, rec2.2.1, r.2.2 ++ rec2.2.2)

/-- Number of refresh-endpoint calls in a log. -/
def countRefresh (log : List LogEntry) : Nat :=
  (log.filter fun e => match e with | .refreshCall => true | _ => false).length

/-- Schedule delivering a 401 first response to each call index in `is`. -/
def burst401 (is : List Nat) : List (Nat × NetEvent) :=
  is.map fun i => (i, NetEvent.firstResp 401)

/-- Concrete two-call schedule: both calls issue their request, both
receive 401 before either refresh settles, both refreshes succeed, both
retries succeed. -/
def sched2 : List (Nat × NetEvent) :=
  [(0, .issue), (1, .issue),
   (0, .firstResp 401), (1, .firstResp 401),
   (0, .refreshResp true ("a1") ("r1")), (1, .refreshResp true ("a1") ("r1")),
   (0, .retryResp 200), (1, .retryResp 200)]

/-- Operations that mutate the session store in the source: `setTokens`
(login success and refresh success), `logout` (explicit logout and both
refresh-failure paths), the constructor's reload from localStorage, and
`refreshAccessToken` bailing out because no refresh token is stored
(throws without touching state). -/
inductive AuthOp
  | setTokensOp (a r : String)
  | logoutOp
  | reloadOp
  | refreshNoTok
deriving Repr, DecidableEq

/-- Apply one session-store operation. -/
def applyOp (s : AuthState) (op : AuthOp) : AuthState :=
  match op with
  | .setTokensOp a r => s.setTokens a r
  | .logoutOp => s.logout
  | .reloadOp => s.reload
  | .refreshNoTok => s

/-- Apply a sequence of session-store operations from the initial state. -/
def applyOps (ops : List AuthOp) : AuthState :=
  ops.foldl applyOp AuthState.initial

/-- Full-or-absent invariant on both the in-memory pair and the stored
pair: the access side is present exactly when the refresh side is. -/
def sessionInv (s : AuthState) : Prop :=
  s.accessToken.isSome = s.refreshToken.isSome ∧
    s.stAccess.isSome = s.stRefresh.isSome

/-- Dashboard view status of `useDashboard`. -/
inductive DashStatus
  | idle
  | loading
  | error
deriving Repr, DecidableEq

/-- Observable dashboard-hook state: the view status plus counters for
in-flight `/dashboard` fetches and fetches started so far. -/
structure DashState where
  status : DashStatus
  inFlight : Nat
  fetchesStarted : Nat
deriving Repr, DecidableEq

/-- Inbound websocket message kinds of `WebSocketMessage`. -/
inductive MsgType
  | connection
  | subscription
  | alert
  | production
  | sensorData
  | pong
deriving Repr, DecidableEq

/-- Events the dashboard hook reacts to: an explicit `refresh()` call
(initial load or manual), a websocket message, and completion of one
in-flight fetch. -/
inductive DashEvent
  | callRefresh
  | wsMessage (t : MsgType)
  | fetchDone (ok : Bool)
deriving Repr, DecidableEq

/-- Body of `refresh()` up to its suspension point: set status to
loading and start a `/dashboard` fetch. -/
def startRefresh (s : DashState) : DashState :=
  { status := .loading, inFlight := s.inFlight + 1,
    fetchesStarted := s.fetchesStarted + 1 }

/-- One dashboard-hook step, from the source: the websocket handler runs
`refresh()` whenever `msg.type` is `alert` or `production` — it keeps no
in-flight flag and schedules nothing, so every relevant message starts a
fetch immediately; a completing fetch sets the status to idle or error. -/
def dashStep (s : DashState) (e : DashEvent) : DashState :=
  match e with
  | .callRefresh => startRefresh s
  | .wsMessage t =>
      if t = MsgType.alert ∨ t = MsgType.production then startRefresh s else s
  | .fetchDone ok =>
      { status := if ok then .idle else .error,
        inFlight := s.inFlight - 1, fetchesStarted := s.fetchesStarted }

/-- Run the dashboard hook over a list of events. -/
def runDash (s : DashState) (evs : List DashEvent) : DashState :=
  evs.foldl dashStep s

/-- Dashboard state on mount, before the initial load. -/
def dashInit : DashState := ⟨.idle, 0, 0⟩

/-- Opening-brace character, written by code point. -/
def lbrace : Char := Char.ofNat 123

/-- Closing-brace character, written by code point. -/
def rbrace : Char := Char.ofNat 125

/-- JSON whitespace: space, tab, line feed, carriage return. -/
def isJsonWs (c : Char) : Bool :=
  c = ' ' || c = Char.ofNat 9 || c = Char.ofNat 10 || c = Char.ofNat 13

/-- Drop leading JSON whitespace. -/
def skipWs : List Char → List Char
  | [] => []
  | c :: cs => if isJsonWs c then skipWs cs else c :: cs

/-- Longest prefix of decimal digits, with the remainder. -/
def takeDigits : List Char → List Char × List Char
  | [] => ([], [])
  | c :: cs =>
      if c.isDigit then
        let r := takeDigits cs
        (c :: r.1, r.2)
      else ([], c :: cs)

/-- Hexadecimal digit test for string escapes. -/
def isHexDigit (c : Char) : Bool :=
  c.isDigit || ('a' ≤ c && c ≤ 'f') || ('A' ≤ c && c ≤ 'F')

/-- Value of a hexadecimal digit. -/
def hexVal (c : Char) : Nat :=
  if c.isDigit then c.toNat - 48
  else if 'a' ≤ c && c ≤ 'f' then c.toNat - 87
  else c.toNat - 55

/-- Decoded character of a single-character string escape. -/
def escChar (e : Char) : Char :=
  if e = 'b' then Char.ofNat 8
  else if e = 'f' then Char.ofNat 12
  else if e = 'n' then Char.ofNat 10
  else if e = 'r' then Char.ofNat 13
  else if e = 't' then Char.ofNat 9
  else e

/-- Body of a JSON string after the opening quote: decoded characters
and the remainder after the closing quote; `none` when unterminated or
holding a bad escape. -/
def parseStringBody : List Char → Option (List Char × List Char)
  | [] => none
  | c :: cs =>
      if c = '"' then some ([], cs)
      else if c = '\\' then
        match cs with
        | [] => none
        | e :: cs2 =>
            if e = 'u' then
              match cs2 with
              | h1 :: h2 :: h3 :: h4 :: cs3 =>
                  if isHexDigit h1 && isHexDigit h2 && isHexDigit h3 && isHexDigit h4 then
                    match parseStringBody cs3 with
                    | some (acc, rest) =>
                        some (Char.ofNat
                          (((hexVal h1 * 16 + hexVal h2) * 16 + hexVal h3) * 16
                            + hexVal h4) :: acc, rest)
                    | none => none
                  else none
              | _ => none
            else if e = '"' || e = '\\' || e = '/' || e = 'b' || e = 'f'
                || e = 'n' || e = 'r' || e = 't' then
              match parseStringBody cs2 with
              | some (acc, rest) => some (escChar e :: acc, rest)
              | none => none
            else none
      else
        match parseStringBody cs with
        | some (acc, rest) => some (c :: acc, rest)
        | none => none

/-- Integer part of a JSON number: a single 0, or a nonzero digit
followed by digits (leading zeros are rejected, as JSON.parse does). -/
def parseIntDigits : List Char → Option (List Char × List Char)
  | [] => none
  | c :: cs =>
      if c = '0' then
        match cs with
        | d :: _ => if d.isDigit then none else some ([c], cs)
        | [] => some ([c], [])
      else if c.isDigit then
        let r := takeDigits cs
        some (c :: r.1, r.2)
      else none

/-- Optional fraction part: a dot must be followed by at least one
digit; an absent fraction yields the empty digit list. -/
def parseFrac : List Char → Option (List Char × List Char)
  | [] => some ([], [])
  | c :: cs =>
      if c = '.' then
        let r := takeDigits cs
        if r.1.isEmpty then none else some (r.1, r.2)
      else some ([], c :: cs)

/-- Optional exponent part: e or E, an optional sign, then at least one
digit; an absent exponent yields the empty list. -/
def parseExp : List Char → Option (List Char × List Char)
  | [] => some ([], [])
  | c :: cs =>
      if c = 'e' || c = 'E' then
        match cs with
        | d :: cs2 =>
            if d = '+' || d = '-' then
              let r := takeDigits cs2
              if r.1.isEmpty then none else some (d :: r.1, r.2)
            else
              let r := takeDigits cs
              if r.1.isEmpty then none else some (r.1, r.2)
        | [] => none
      else some ([], c :: cs)

/-- Parsed JSON values. Numbers keep their textual parts (sign, integer,
fraction, exponent digits); object fields and strings keep decoded
character lists. -/
inductive Json
  | jnull
  | jbool (b : Bool)
  | jnum (neg : Bool) (ip fp ex : List Char)
  | jstr (s : List Char)
  | jarr (xs : List Json)
  | jobj (fs : List (List Char × Json))

/-- Number starting at `cs` (after any leading minus handling by the
caller): integer, fraction and exponent parts. -/
def parseNumTail (neg : Bool) (cs : List Char) : Option (Json × List Char) :=
  match parseIntDigits cs with
  | none => none
  | some (ip, cs2) =>
      match parseFrac cs2 with
      | none => none
      | some (fp, cs3) =>
          match parseExp cs3 with
          | none => none
          | some (ex, cs4) => some (.jnum neg ip fp ex, cs4)

/-- Match an expected literal tail such as `ull` for `null`. -/
def dropLit : List Char → List Char → Option (List Char)
  | [], cs => some cs
  | _ :: _, [] => none
  | l :: ls, c :: cs => if c = l then dropLit ls cs else none

mutual

/-- Recursive-descent JSON value parser with explicit fuel, following
the grammar JSON.parse accepts: null, true, false, numbers, strings
with escapes, arrays and objects. -/
def parseValue : Nat → List Char → Option (Json × List Char)
  | 0, _ => none
  | Nat.succ n, cs =>
      match skipWs cs with
      | [] => none
      | c :: cs2 =>
          if c = 'n' then
            match dropLit ['u', 'l', 'l'] cs2 with
            | some rest => some (.jnull, rest)
            | none => none
          else if c = 't' then
            match dropLit ['r', 'u', 'e'] cs2 with
            | some rest => some (.jbool true, rest)
            | none => none
          else if c = 'f' then
            match dropLit ['a', 'l', 's', 'e'] cs2 with
            | some rest => some (.jbool false, rest)
            | none => none
          else if c = '"' then
            match parseStringBody cs2 with
            | some (s, rest) => some (.jstr s, rest)
            | none => none
          else if c = '[' then
            match skipWs cs2 with
            | d :: cs3 =>
                if d = ']' then some (.jarr [], cs3)
                else
                  match parseItems n (d :: cs3) with
                  | some (xs, rest) => some (.jarr xs, rest)
                  | none => none
            | [] => none
          else if c = lbrace then
            match skipWs cs2 with
            | d :: cs3 =>
                if d = rbrace then some (.jobj [], cs3)
                else
                  match parseMembers n (d :: cs3) with
                  | some (fs, rest) => some (.jobj fs, rest)
                  | none => none
            | [] => none
          else if c = '-' then parseNumTail true cs2
          else if c.isDigit then parseNumTail false (c :: cs2)
          else none

/-- Comma-separated array items up to the closing bracket. -/
def parseItems : Nat → List Char → Option (List Json × List Char)
  | 0, _ => none
  | Nat.succ n, cs =>
      match parseValue n cs with
      | none => none
      | some (v, rest) =>
          match skipWs rest with
          | d :: rest2 =>
              if d = ',' then
                match parseItems n rest2 with
                | some (vs, r) => some (v :: vs, r)
                | none => none
              else if d = ']' then some ([v], rest2)
              else none
          | [] => none

/-- Comma-separated object members (string key, colon, value) up to the
closing brace. -/
def parseMembers : Nat → List Char → Option (List (List Char × Json) × List Char)
  | 0, _ => none
  | Nat.succ n, cs =>
      match skipWs cs with
      | c :: cs2 =>
          if c = '"' then
            match parseStringBody cs2 with
            | some (key, rest) =>
                match skipWs rest with
                | d :: rest2 =>
                    if d = ':' then
                      match parseValue n rest2 with
                      | some (v, rest3) =>
                          match skipWs rest3 with
                          | e :: rest4 =>
                              if e = ',' then
                                match parseMembers n rest4 with
                                | some (ms, r) => some ((key, v) :: ms, r)
                                | none => none
                              else if e = rbrace then some ([(key, v)], rest4)
                              else none
                          | [] => none
                      | none => none
                    else none
                | [] => none
            | none => none
          else none
      | [] => none

end

/-- JSON.parse on a whole string: one value, optionally surrounded by
whitespace; anything else fails. The fuel is generous: nesting consumes
at least one character per two fuel units. -/
def parseJson (s : String) : Option Json :=
  let cs := s.toList
  match parseValue (2 * cs.length + 2) cs with
  | some (v, rest) => if (skipWs rest).isEmpty then some v else none
  | none => none

/-- Control messages `connectWebSocket` sends to the server. -/
inductive CtlMsg
  | subscribeMsg (topic : String)
  | unsubscribeMsg (topic : String)
deriving Repr, DecidableEq

/-- Observable channel actions: sending a control message, attempting a
(re)connection, closing the socket. `connectAttempt` is never produced
by the embedded handlers; it exists so its absence is expressible. -/
inductive WsAction
  | send (m : CtlMsg)
  | connectAttempt
  | closeSocket
deriving Repr, DecidableEq

/-- One websocket connection created by `connectWebSocket`: the topic
list the call was given. One consumer callback belongs to each
connection; distinct consumers get distinct connections. -/
structure WsConn where
  topics : List String
deriving Repr, DecidableEq

/-- Browser events a connection can receive. -/
inductive WsEvent
  | openEv
  | messageEv (raw : String)
  | errorEv
  | closeEv
deriving Repr, DecidableEq

/-- Handler table installed by `connectWebSocket`, from the source:

* onopen sends a subscribe control message per registered topic;
* onmessage runs `JSON.parse` inside try/catch and hands the parsed
  value to the consumer callback (the cast performs no validation);
  a parse failure is swallowed by the catch block;
* onerror is an empty function;
* no onclose handler is installed, so a close event runs no
  application code at all.

The result is the connection state, the emitted actions, and the list
of values delivered to the consumer callback. -/
def wsHandle (c : WsConn) (ev : WsEvent) : WsConn × List WsAction × List Json :=
  match ev with
  | .openEv => (c, c.topics.map fun t => WsAction.send (CtlMsg.subscribeMsg t), [])
  | .messageEv raw =>
      match parseJson raw with
      | none => (c, [], [])
      | some v => (c, [], [v])
  | .errorEv => (c, [], [])
  | .closeEv => (c, [], [])

/-- Cleanup closure returned by `connectWebSocket`: send an unsubscribe
control message for every topic of this connection (each wrapped in its
own try/catch) and close the socket — unconditionally, with no check of
other consumers. -/
def cleanupActions (c : WsConn) : List WsAction :=
  (c.topics.map fun t => WsAction.send (CtlMsg.unsubscribeMsg t)) ++ [WsAction.closeSocket]

/-- Connection used by the dashboard hook: topics alerts, production. -/
def conn0 : WsConn := ⟨[("alerts"), ("production")]⟩

/-- A second consumer's connection, subscribed to the alerts topic only. -/
def connA : WsConn := ⟨[("alerts")]⟩

/-- Helper for counting: filtering a concatenated log splits the count. -/
theorem countRefresh_append (l1 l2 : List LogEntry) :
    countRefresh (l1 ++ l2) = countRefresh l1 + countRefresh l2 := by
  simp [countRefresh, List.filter_append]

/-- Delivering a 401 first response to each of a set of distinct calls
that are all awaiting their first response, while a refresh token is
stored, makes every one of them start its own refresh call: the refresh
count equals the number of such calls. The session state is read but
never written on this path, so the stored refresh token stays in place
throughout the burst. -/
theorem refresh_burst_aux (r : String) :
    ∀ (is : List Nat) (auth : AuthState) (phases : List CallPhase),
      auth.refreshToken = some r → is.Nodup →
      (∀ i ∈ is, phases[i]? = some (CallPhase.awaitingFirst true)) →
      countRefresh (runCalls auth phases (burst401 is)).2.2 = is.length := by
  intro is
  induction is with
  | nil =>
      intro auth phases _ _ _
      simp [burst401, runCalls, countRefresh]
  | cons i is ih =>
      intro auth phases hr hnd hph
      have hi : phases[i]? = some (CallPhase.awaitingFirst true) := hph i (by simp)
      have hstep : stepCall auth (CallPhase.awaitingFirst true) (NetEvent.firstResp 401)
          = (auth, CallPhase.awaitingRefresh, [LogEntry.refreshCall]) := by
        simp [stepCall, hr]
      have hnodup := List.nodup_cons.mp hnd
      have hrest : ∀ j ∈ is,
          (phases.set i CallPhase.awaitingRefresh)[j]? = some (CallPhase.awaitingFirst true) := by
        intro j hj
        have hne : i ≠ j := fun he => hnodup.1 (he ▸ hj)
        rw [List.getElem?_set_ne hne]
        exact hph j (List.mem_cons_of_mem i hj)
      have hih := ih auth (phases.set i CallPhase.awaitingRefresh) hr hnodup.2 hrest
      simp only [burst401, List.map_cons] at hih ⊢
      rw [runCalls, hi]
      simp only [hstep]
      rw [countRefresh_append, hih]
      simp [countRefresh]
      omega

/-- Claim C1 counterexample: two concurrent calls both receive 401
against the same stored credential; the run issues two refresh calls,
not the single one the claim requires. There is no pending-refresh
handle in `apiFetch` or `AuthService`, so every 401-receiving call
starts its own refresh. -/
theorem refresh_single_flight_counterexample :
    countRefresh (runCalls (authWith ("ta") ("tr"))
      [CallPhase.start true, CallPhase.start true] sched2).2.2 = 2 ∧
    countRefresh (runCalls (authWith ("ta") ("tr"))
      [CallPhase.start true, CallPhase.start true] sched2).2.2 ≠ 1 := by
  constructor
  · rfl
  · decide

/-- Claim C1 (amended): under N ≥ 2 concurrent calls that have all
issued their request and all receive a 401 against the same stored
credential, the executor starts one refresh call per denied call — N
refresh calls, not one; no single-flight guard exists. -/
theorem refresh_per_concurrent_caller (n : Nat) (ta tr : String) (_h : 2 ≤ n) :
    countRefresh (runCalls (authWith ta tr)
      (List.replicate n (CallPhase.awaitingFirst true))
      (burst401 (List.range n))).2.2 = n := by
  have hmem : ∀ i ∈ List.range n,
      (List.replicate n (CallPhase.awaitingFirst true))[i]?
        = some (CallPhase.awaitingFirst true) := by
    intro i hi
    have hlt : i < n := List.mem_range.mp hi
    simp [List.getElem?_replicate, hlt]
  have := refresh_burst_aux tr (List.range n) (authWith ta tr)
    (List.replicate n (CallPhase.awaitingFirst true)) rfl (List.nodup_range n) hmem
  simpa [List.length_range] using this

/-- Claim C1 witness: the amended statement at N = 2. -/
theorem refresh_per_concurrent_caller_witness :
    2 ≤ 2 ∧ countRefresh (runCalls (authWith ("ta") ("tr"))
      (List.replicate 2 (CallPhase.awaitingFirst true))
      (burst401 (List.range 2))).2.2 = 2 :=
  ⟨by decide, refresh_per_concurrent_caller 2 ("ta") ("tr") (by decide)⟩

/-- Claim C2: a call whose first response is 401 and whose refresh
succeeds retries exactly once with the new token (one fetchCall, one
refreshCall, one retryCall); a second 401 on the retry is returned to
the caller as the terminal result, later events are absorbed by the
done phase with no further refresh or retry, and the session keeps the
refreshed credential pair. -/
theorem retry_once_after_refresh_terminal_401 (ta tr a2 r2 : String) :
    runCalls (authWith ta tr) [CallPhase.start true]
      [(0, .issue), (0, .firstResp 401), (0, .refreshResp true a2 r2),
       (0, .retryResp 401), (0, .firstResp 401), (0, .refreshResp true a2 r2)] =
    (authWith a2 r2, [CallPhase.done (CallResult.response 401)],
     [LogEntry.fetchCall true, LogEntry.refreshCall, LogEntry.retryCall]) := rfl

/-- Claim C3: when the refresh triggered by a 401 fails, the session is
cleared in memory and durable storage (final state is `initial`), the
caller gets a thrown refresh-failure error rather than a response, the
original call is never retried (no retryCall in the log), the
presentation layer is redirected to /login, and a subsequent
authenticated call goes out without an Authorization header
(`fetchCall false`). -/
theorem refresh_failure_clears_session_and_errors (ta tr x y : String) :
    runCalls (authWith ta tr) [CallPhase.start true, CallPhase.start true]
      [(0, .issue), (0, .firstResp 401), (0, .refreshResp false x y), (1, .issue)] =
    (AuthState.initial,
     [CallPhase.done (CallResult.thrown ErrKind.refreshFailed),
      CallPhase.awaitingFirst true],
     [LogEntry.fetchCall true, LogEntry.refreshCall, LogEntry.redirectLogin,
      LogEntry.fetchCall false]) := rfl

/-- Claim C8: with no session, the request indeed goes out without an
Authorization header (`fetchCall false`), and a non-401 response is
returned unmodified; but a 401 response is not returned to the caller —
the refresh branch runs despite the absent refresh token, throws, and
the catch block logs the caller out and redirects, so the caller
receives a thrown error. This contradicts the code's own comment
(refresh only when a refresh token is stored) and the spec. -/
theorem no_session_401_throws_divergence :
    runCalls AuthState.initial [CallPhase.start true]
        [(0, .issue), (0, .firstResp 401)] =
      (AuthState.initial,
       [CallPhase.done (CallResult.thrown ErrKind.noRefreshToken)],
       [LogEntry.fetchCall false, LogEntry.redirectLogin]) ∧
    runCalls AuthState.initial [CallPhase.start true]
        [(0, .issue), (0, .firstResp 200)] =
      (AuthState.initial, [CallPhase.done (CallResult.response 200)],
       [LogEntry.fetchCall false]) :=
  ⟨rfl, rfl⟩

/-- Claim C4 counterexample: two realtime alert messages delivered while
the initial fetch is in flight start two further fetches immediately:
three fetches started, three concurrently in flight — the claim allows
at most one additional re-fetch and forbids concurrent fetches. -/
theorem refetch_coalescing_counterexample :
    runDash dashInit [DashEvent.callRefresh, DashEvent.wsMessage MsgType.alert,
        DashEvent.wsMessage MsgType.alert] =
      { status := DashStatus.loading, inFlight := 3, fetchesStarted := 3 } ∧
    ¬ ((runDash dashInit [DashEvent.callRefresh, DashEvent.wsMessage MsgType.alert,
        DashEvent.wsMessage MsgType.alert]).inFlight ≤ 1) := by
  constructor
  · rfl
  · decide

/-- Helper for Claim C4: a burst of k alert messages adds k to the
in-flight count and to the started count, from any dashboard state. -/
theorem refetch_burst_aux (k : Nat) :
    ∀ s : DashState,
      (runDash s (List.replicate k (DashEvent.wsMessage MsgType.alert))).inFlight
          = s.inFlight + k ∧
      (runDash s (List.replicate k (DashEvent.wsMessage MsgType.alert))).fetchesStarted
          = s.fetchesStarted + k := by
  induction k with
  | zero =>
      intro s
      simp [runDash]
  | succ k ih =>
      intro s
      have hstep : dashStep s (DashEvent.wsMessage MsgType.alert) = startRefresh s := by
        simp [dashStep]
      have hrun : runDash s (List.replicate (k + 1) (DashEvent.wsMessage MsgType.alert))
          = runDash (startRefresh s) (List.replicate k (DashEvent.wsMessage MsgType.alert)) := by
        simp [runDash, List.replicate_succ, hstep]
      rw [hrun]
      obtain ⟨h1, h2⟩ := ih (startRefresh s)
      constructor
      · rw [h1]
        simp [startRefresh]
        omega
      · rw [h2]
        simp [startRefresh]
        omega

/-- Claim C4 (amended): the websocket handler invokes `refresh()` for
every alert or production message with no in-flight check and no
scheduling, so K relevant events delivered while a re-fetch is in
flight start K further fetches immediately: started and in-flight
counts both grow by K, and the fetches run concurrently. -/
theorem refetch_per_event (k : Nat) (s : DashState) :
    (runDash (startRefresh s)
        (List.replicate k (DashEvent.wsMessage MsgType.alert))).inFlight
      = s.inFlight + 1 + k ∧
    (runDash (startRefresh s)
        (List.replicate k (DashEvent.wsMessage MsgType.alert))).fetchesStarted
      = s.fetchesStarted + 1 + k := by
  obtain ⟨h1, h2⟩ := refetch_burst_aux k (startRefresh s)
  constructor
  · rw [h1]
    simp [startRefresh]
  · rw [h2]
    simp [startRefresh]

/-- Claim C5 counterexample: on an unexpected close event the channel
does nothing — no state change, no action, in particular no
reconnection attempt — because `connectWebSocket` installs no onclose
handler and its onerror handler is empty; the claim requires a
Reconnecting state and retried connection attempts. -/
theorem reconnect_counterexample :
    wsHandle conn0 WsEvent.closeEv = (conn0, [], []) ∧
    WsAction.connectAttempt ∉ (wsHandle conn0 WsEvent.closeEv).2.1 := by
  refine ⟨rfl, ?_⟩
  simp [wsHandle]

/-- Claim C5 (amended): on unexpected closure the channel takes no
action at all (no reconnection, no backoff, no state change) — no
handler of the connection ever emits a connection attempt; topics are
(re-)subscribed only when a fresh connection's open handler runs, and
then exactly the topic list that connection was created with. -/
theorem close_is_inert_open_resubscribes (c : WsConn) :
    wsHandle c WsEvent.closeEv = (c, [], []) ∧
    (∀ ev : WsEvent, WsAction.connectAttempt ∉ (wsHandle c ev).2.1) ∧
    (wsHandle c WsEvent.openEv).2.1
      = (c.topics.map fun t => WsAction.send (CtlMsg.subscribeMsg t)) := by
  refine ⟨rfl, ?_, rfl⟩
  intro ev
  cases ev with
  | openEv => simp [wsHandle]
  | messageEv raw => cases hp : parseJson raw <;> simp [wsHandle, hp]
  | errorEv => simp [wsHandle]
  | closeEv => simp [wsHandle]

/-- Claim C6 counterexample: the consumer behind `connA` is not the last
consumer of the alerts topic — the dashboard's connection `conn0` still
subscribes to it — yet invoking `connA`'s cleanup handle sends an
unsubscribe control message for alerts: the cleanup never checks other
consumers. -/
theorem unsubscribe_nonlast_counterexample :
    WsAction.send (CtlMsg.unsubscribeMsg ("alerts")) ∈ cleanupActions connA ∧
    ("alerts") ∈ conn0.topics := by
  constructor
  · simp [cleanupActions, connA]
  · simp [conn0]

/-- Claim C6 (amended): the cleanup handle returned by
`connectWebSocket` always sends an unsubscribe control message for
every topic of its own connection, and closes the socket,
unconditionally — whether or not other consumers remain subscribed. -/
theorem cleanup_always_unsubscribes (c : WsConn) (t : String) (h : t ∈ c.topics) :
    WsAction.send (CtlMsg.unsubscribeMsg t) ∈ cleanupActions c ∧
    WsAction.closeSocket ∈ cleanupActions c := by
  constructor
  · exact List.mem_append_left _ (List.mem_map_of_mem _ h)
  · exact List.mem_append_right _ (by simp)

/-- Claim C6 witness: the amended statement at the alerts topic of
`connA`. -/
theorem cleanup_always_unsubscribes_witness :
    ("alerts") ∈ connA.topics ∧
    (WsAction.send (CtlMsg.unsubscribeMsg ("alerts")) ∈ cleanupActions connA ∧
     WsAction.closeSocket ∈ cleanupActions connA) :=
  ⟨by simp [connA], cleanup_always_unsubscribes connA ("alerts") (by simp [connA])⟩

/-- Helper for Claim C7: every session-store operation preserves the
full-or-absent invariant. -/
theorem sessionInv_applyOp (s : AuthState) (op : AuthOp) (h : sessionInv s) :
    sessionInv (applyOp s op) := by
  obtain ⟨h1, h2⟩ := h
  cases op with
  | setTokensOp a r => exact ⟨rfl, rfl⟩
  | logoutOp => exact ⟨rfl, rfl⟩
  | reloadOp => exact ⟨h2, h2⟩
  | refreshNoTok => exact ⟨h1, h2⟩

/-- Claim C7: every state of the session store reachable from the
initial empty state by its operations — `setTokens` (login and refresh
success), `logout` (explicit logout and refresh failure), the
constructor's reload from durable storage, and the no-refresh-token
bailout — has both credentials set or both unset, simultaneously in
memory and in durable storage; no operation creates a partial state. -/
theorem session_invariant_reachable (ops : List AuthOp) :
    sessionInv (applyOps ops) := by
  have hstep : ∀ s, sessionInv s → sessionInv (ops.foldl applyOp s) := by
    induction ops with
    | nil => intro s h; exact h
    | cons op rest ih => intro s h; exact ih (applyOp s op) (sessionInv_applyOp s op h)
  exact hstep AuthState.initial ⟨rfl, rfl⟩

/-- Claim C9: an inbound message whose payload does not parse as JSON is
dropped by the catch block around `JSON.parse`: the consumer callback is
never invoked, the connection state is unchanged, and the handler
returns normally instead of throwing. -/
theorem malformed_message_dropped (c : WsConn) (raw : String)
    (h : parseJson raw = none) :
    wsHandle c (WsEvent.messageEv raw) = (c, [], []) := by
  simp [wsHandle, h]

/-- Claim C9 witness: the truncated payload `[1,` fails to parse and is
dropped on the dashboard connection. -/
theorem malformed_message_dropped_witness :
    parseJson ("[1,") = none ∧
    wsHandle conn0 (WsEvent.messageEv ("[1,")) = (conn0, [], []) :=
  ⟨rfl, malformed_message_dropped conn0 ("[1,") rfl⟩

/-- Claim C10: `logout` is idempotent — a second `logout` changes
neither the in-memory fields nor the durable-storage keys — and after
any `logout` the access token accessor returns none, `isAuthenticated`
is false, and both storage keys are removed. -/
theorem logout_idempotent (s : AuthState) :
    s.logout.logout = s.logout ∧
    s.logout.getAccessToken = none ∧
    s.logout.isAuthenticated = false ∧
    s.logout.stAccess = none ∧
    s.logout.stRefresh = none :=
  ⟨rfl, rfl, rfl, rfl, rfl⟩

end ApexClient
